import Mathlib

/-!
# Verification of the events-sdk delivery and session core

Shallow embedding of the web SDK (`src/web/src/index.ts`, class `AffiliateSDK`)
together with the event-building fragment of the React Native SDK
(`src/react-native/index.js`).  JavaScript objects holding free-form
parameters are modelled as association lists of scalar values; browser
collaborators (DOM, `Math.random`, canvas fingerprinting, the network) are
modelled as explicit oracle inputs; `localStorage` is a key-value store that
either works or throws on every access; a JavaScript function that can throw
into its caller is modelled with `Except Unit`.
-/

set_option autoImplicit false

namespace EventsSDK

/-- A JavaScript scalar value as it appears in an event parameter bag:
`string | number | boolean | null | undefined`
(`src/web/src/index.ts`, interface `EventParameters`).  Numbers are modelled
as integers; no claim depends on fractional arithmetic. -/
inductive Val where
  | str (s : String)
  | num (n : Int)
  | bool (b : Bool)
  | null
  | undefined
  deriving DecidableEq, Repr

/-- A JavaScript object with scalar fields, in key-insertion order. -/
abbrev Record := List (String × Val)

/-- First binding of a key, as JavaScript property lookup sees it. -/
def lookupField (r : Record) (k : String) : Option Val :=
  (r.find? (fun p => p.1 == k)).map (fun p => p.2)

/-- JavaScript property read: a missing key reads as `undefined`. -/
def getField (r : Record) (k : String) : Val :=
  (lookupField r k).getD .undefined

/-- JavaScript property write: an existing key keeps its slot, a new key is
appended at the end. -/
def setField : Record → String → Val → Record
  | [], k, v => [(k, v)]
  | (k', v') :: rest, k, v =>
    if k' == k then (k', v) :: rest else (k', v') :: setField rest k v

/-- JavaScript object spread `{...base, ...ext}`: the fields of `ext` are
written over `base` left to right, so a field of `ext` wins over a field of
`base` with the same name. -/
def spreadRecord (base ext : Record) : Record :=
  ext.foldl (fun acc kv => setField acc kv.1 kv.2) base

/-- `some s` for a configured string, JavaScript `undefined` otherwise
(e.g. `this.deviceInfo?.device_id`, `this.config.affiliateCode` when the
caller never supplied one). -/
def valOfUndef : Option String → Val
  | some s => .str s
  | none => .undefined

/-- `some s` for a set string field, JavaScript `null` otherwise
(e.g. `this.sessionId`, initialised to `null`). -/
def valOfNullable : Option String → Val
  | some s => .str s
  | none => .null

/-- The browser `localStorage` visible to one SDK instance: either a working
key-value store or one whose every access throws (storage disabled, quota,
privacy mode).  Keys are the full `storagePrefix`-qualified names. -/
inductive Store where
  | ok (entries : List (String × String))
  | broken
  deriving DecidableEq, Repr

/-- First value bound to a key in a plain string association list. -/
def lookupStr (entries : List (String × String)) (k : String) : Option String :=
  (entries.find? (fun p => p.1 == k)).map (fun p => p.2)

/-- Overwrite-or-append for a plain string association list. -/
def setStr : List (String × String) → String → String → List (String × String)
  | [], k, v => [(k, v)]
  | (k', v') :: rest, k, v =>
    if k' == k then (k', v) :: rest else (k', v') :: setStr rest k v

/-- `localStorage.getItem`: `none` models the JavaScript `null` result for an
absent key; `.error` models a thrown storage exception. -/
def storeGet (s : Store) (k : String) : Except Unit (Option String) :=
  match s with
  | .ok entries => .ok (lookupStr entries k)
  | .broken => .error ()

/-- `localStorage.setItem`, returning the updated store; `.error` models a
thrown storage exception. -/
def storeSet (s : Store) (k : String) (v : String) : Except Unit Store :=
  match s with
  | .ok entries => .ok (.ok (setStr entries k v))
  | .broken => .error ()

/-- External entropy: the successive strings produced by the
`Math.random`-driven `generateRandomString` calls
(`src/web/src/index.ts` line 764). -/
structure Rng where
  seeds : List String
  deriving DecidableEq, Repr

/-- Draw the next random string. -/
def Rng.next : Rng → String × Rng
  | ⟨[]⟩ => ("", ⟨[]⟩)
  | ⟨s :: rest⟩ => (s, ⟨rest⟩)

/-- SDK configuration (`AffiliateSDKConfig`).  `affiliateCode` is required by
the TypeScript type but nothing validates it at runtime, so an absent value is
representable. -/
structure Config where
  affiliateCode : Option String
  appCode : Option String
  debug : Bool
  disableExternalRequests : Bool
  deriving DecidableEq, Repr

/-- `this.storagePrefix = ` the affiliate-code-qualified namespace; JavaScript
template interpolation of an `undefined` code produces the literal text
`undefined`. -/
def storageKeyBase (cfg : Config) : String :=
  "affiliate_sdk_" ++ cfg.affiliateCode.getD "undefined"

/-- `this.sessionTimeout = 30 * 60 * 1000` milliseconds. -/
def sessionTimeoutMs : Nat := 30 * 60 * 1000

/-- `getOrCreateSessionId` (`src/web/src/index.ts` lines 501-515): read the
persisted session id; if absent (or the empty string, which is falsy),
generate `sess_<now>_<random>` and persist it; if the storage throws at any
point, the catch block returns a freshly generated, non-persisted id. -/
def getOrCreateSessionId (keyBase : String) (store : Store) (now : Nat)
    (rng : Rng) : String × Store × Rng :=
  match storeGet store (keyBase ++ "_session") with
  | .error _ =>
    -- catch: logError, then return a fresh id without persisting it
    ("sess_" ++ toString now ++ "_" ++ rng.next.1, store, rng.next.2)
  | .ok v =>
    match v with
    | some s =>
      if s = "" then
        -- falsy stored value: treated like an absent id
        match storeSet store (keyBase ++ "_session")
            ("sess_" ++ toString now ++ "_" ++ rng.next.1) with
        | .ok store' =>
          ("sess_" ++ toString now ++ "_" ++ rng.next.1, store', rng.next.2)
        | .error _ =>
          -- catch after the failed write: a second fresh id, not persisted
          ("sess_" ++ toString now ++ "_" ++ rng.next.2.next.1, store,
           rng.next.2.next.2)
      else (s, store, rng)
    | none =>
      match storeSet store (keyBase ++ "_session")
          ("sess_" ++ toString now ++ "_" ++ rng.next.1) with
      | .ok store' =>
        ("sess_" ++ toString now ++ "_" ++ rng.next.1, store', rng.next.2)
      | .error _ =>
        ("sess_" ++ toString now ++ "_" ++ rng.next.2.next.1, store,
         rng.next.2.next.2)

/-! ## Event records and the retry queue -/

/-- The wire event record assembled by the web `trackEvent`
(`src/web/src/index.ts` lines 224-243), in the insertion order of the object
literal.  `app_code` is added only when configured (line 241-243);
`fingerprint`, `click_id` and `attribution_method` are added later by
`sendEvent` (lines 519-529). -/
structure EventData where
  unique_code : Val
  event_type : String
  timestamp : Nat
  session_id : Val
  platform : String
  url : String
  device_id : Val
  user_id : Val
  amount : Val
  currency : Val
  /-- The caller's full parameter bag; on the wire it is sent as the single
  field `additional_data = JSON.stringify(parameters)`. -/
  additional_data : Record
  app_code : Option String
  fingerprint : Option String
  click_id : Option String
  attribution_method : Option String
  deriving DecidableEq, Repr

/-- A record held in `this.eventQueue` minus its two retry bookkeeping
fields.  Queue entries come in two shapes: full wire events queued by
`sendEvent` on delivery failure, and the ad hoc
`\x7b event_type, parameters \x7d` objects queued by `trackEvent` before
initialization (lines 214-220).  (For a drained pre-init record the source
also tags fingerprint/attribution fields onto the raw object inside
`sendEvent`; those additions to the ad hoc shape are not tracked.) -/
inductive QueuedEvent where
  | wire (e : EventData)
  | preInit (event_type : String) (parameters : Record)
  deriving DecidableEq, Repr

/-- One entry of the volatile in-memory retry queue: the payload plus
`retry_count` and `queued_at`. -/
structure QueueEntry where
  data : QueuedEvent
  retry_count : Nat
  queued_at : Nat
  deriving DecidableEq, Repr

/-- The mutable fields of one `AffiliateSDK` instance that the delivery and
session core touches, together with the browser storage it reaches through
`localStorage`. -/
structure SdkState where
  config : Config
  sessionId : Option String
  sessionStartTime : Option Nat
  lastEventTime : Option Nat
  pageStartTime : Nat
  isInitialized : Bool
  deviceId : Option String
  eventQueue : List QueueEntry
  store : Store
  deriving DecidableEq, Repr

/-! ## Transport (`makeRequest`, lines 1061-1119) -/

/-- The observable outcome of one `makeRequest` call: either `fetch` resolved
with an HTTP response (any status), or `fetch` threw / was unavailable and the
`XMLHttpRequest` fallback fired `onload` (any status), `onerror`, or its 10 s
`ontimeout`. -/
inductive RequestOutcome where
  | fetchOk (status : Nat)
  | xhrLoad (status : Nat)
  | xhrError
  | xhrTimeout
  deriving DecidableEq, Repr

/-- An HTTP response as far as the SDK can observe it. -/
structure HttpResponse where
  status : Nat
  deriving DecidableEq, Repr

/-- The `ok` flag computed for the XHR Response-like object
(line 1092): `status >= 200 && status < 300`.  `sendEvent` never reads it. -/
def HttpResponse.okFlag (r : HttpResponse) : Bool :=
  decide (200 ≤ r.status) && decide (r.status < 300)

/-- `makeRequest`: `null` when external requests are disabled; otherwise a
response object whenever either channel produced one (regardless of status),
and `null` when the XHR fallback errored or timed out (both resolve `null`,
lines 1102-1111). -/
def makeRequest (disableExternalRequests : Bool) (o : RequestOutcome) :
    Option HttpResponse :=
  if disableExternalRequests then none
  else
    match o with
    | .fetchOk s => some ⟨s⟩
    | .xhrLoad s => some ⟨s⟩
    | .xhrError => none
    | .xhrTimeout => none

/-! ## `sendEvent` and the queue drain -/

/-- The mutations `sendEvent` applies to its event before dispatch
(lines 519-529): a fingerprint when none is present, and the stored
attribution's `click_id`/`attribution_method` when attribution data with a
`click_id` exists.  `fp` is the canvas-fingerprint oracle; `attr` is the
parsed attribution record's `(click_id, attribution_method)`. -/
def enrichEvent (e : EventData) (fp : String) (attr : Option (String × String)) :
    EventData :=
  let e1 := if e.fingerprint.isNone then { e with fingerprint := some fp } else e
  match attr with
  | some (cid, m) => { e1 with click_id := some cid, attribution_method := some m }
  | none => e1

/-- `enrichEvent` lifted to both queue-payload shapes (the source applies the
same ad hoc mutations to a drained pre-init object; those fields of the ad hoc
shape are not tracked here). -/
def enrichQueued (q : QueuedEvent) (fp : String) (attr : Option (String × String)) :
    QueuedEvent :=
  match q with
  | .wire e => .wire (enrichEvent e fp attr)
  | .preInit n ps => .preInit n ps

/-- `sendEvent` (lines 517-566): enrich the event, issue `makeRequest`, and on
a non-null response report success — the HTTP status is never inspected.  On a
null response (or a thrown request, also caught, lines 556-565) append the
enriched record to `this.eventQueue` with `retry_count = 0` and
`queued_at = now`.  Returns the new queue and whether the event was treated as
delivered.  The function catches internally and never throws to its caller. -/
def sendEvent (disableExternalRequests : Bool) (queue : List QueueEntry)
    (ev : QueuedEvent) (fp : String) (attr : Option (String × String))
    (o : RequestOutcome) (now : Nat) : List QueueEntry × Bool :=
  let ev' := enrichQueued ev fp attr
  match makeRequest disableExternalRequests o with
  | some _ => (queue, true)
  | none => (queue ++ [⟨ev', 0, now⟩], false)

/-- The loop body of `processEventQueue` (lines 574-587) over the snapshot of
the queue: an entry with `retry_count < 3` is stripped of its bookkeeping
fields and handed to `sendEvent` (consuming one transport outcome); an entry
at or above 3 is skipped.  The source's catch block, which would re-queue with
`retry_count + 1`, is unreachable because `sendEvent` never rejects; the model
therefore has no failure branch.  Accumulates the rebuilt queue and the list
of attempted deliveries. -/
def drainLoop (disableExternalRequests : Bool) (fp : String)
    (attr : Option (String × String)) (now : Nat) :
    List QueueEntry → List RequestOutcome → List QueueEntry →
    List QueuedEvent → List QueueEntry × List QueuedEvent
  | [], _, acc, atts => (acc, atts)
  | e :: rest, os, acc, atts =>
    if e.retry_count < 3 then
      drainLoop disableExternalRequests fp attr now rest os.tail
        (sendEvent disableExternalRequests acc e.data fp attr
          (os.headD .xhrError) now).1
        (atts ++ [enrichQueued e.data fp attr])
    else
      drainLoop disableExternalRequests fp attr now rest os acc atts

/-- `processEventQueue` on the queue alone (lines 568-588): early return on an
empty queue; otherwise snapshot the queue, clear it, and run the drain loop.
`outcomes` supplies one transport outcome per attempted entry. -/
def drainQueue (disableExternalRequests : Bool) (fp : String)
    (attr : Option (String × String)) (outcomes : List RequestOutcome)
    (now : Nat) (queue : List QueueEntry) :
    List QueueEntry × List QueuedEvent :=
  if queue = [] then ([], [])
  else drainLoop disableExternalRequests fp attr now queue outcomes [] []

/-- `processEventQueue` as a state transition of the SDK instance. -/
def processEventQueue (st : SdkState) (fp : String)
    (attr : Option (String × String)) (outcomes : List RequestOutcome)
    (now : Nat) : SdkState × List QueuedEvent :=
  ({ st with
     eventQueue := (drainQueue st.config.disableExternalRequests fp attr
       outcomes now st.eventQueue).1 },
   (drainQueue st.config.disableExternalRequests fp attr outcomes now
     st.eventQueue).2)

/-! ## Event building and the public entrypoints

Each public entrypoint is an `Except Unit` function: an `.error` result would
be an exception or promise rejection escaping into the host application. -/

/-- `true` exactly for a normally returning call. -/
def isOkE {ε α : Type} : Except ε α → Bool
  | .ok _ => true
  | .error _ => false

/-- The event record assembled by `trackEvent` (lines 224-243): context
fields are fixed by the builder; the caller's bag contributes only the lifted
`user_id`/`amount`/`currency` fields and the `additional_data` serialization.
`url` is the `window.location.href` oracle. -/
def buildEventData (st : SdkState) (now : Nat) (name : String)
    (params : Record) (url : String) : EventData :=
  { unique_code := valOfUndef st.config.affiliateCode
  , event_type := name
  , timestamp := now
  , session_id := valOfNullable st.sessionId
  , platform := "web"
  , url := url
  , device_id := valOfUndef st.deviceId
  , user_id := getField params "user_id"
  , amount := getField params "amount"
  , currency := getField params "currency"
  , additional_data := params
  , app_code := st.config.appCode
  , fingerprint := none
  , click_id := none
  , attribution_method := none }

/-- `String(value)` for a query parameter, or `none` for the `null` and
`undefined` values that the loop at lines 534-538 skips. -/
def valToParamString : Val → Option String
  | .str s => some s
  | .num n => some (toString n)
  | .bool b => some (if b then "true" else "false")
  | .null => none
  | .undefined => none

/-- `JSON.stringify` restricted to a flat scalar bag: `undefined`-valued keys
are omitted; string escaping is not modelled. -/
def jsonStringify (ps : Record) : String :=
  let cell : String × Val → String := fun p =>
    "\"" ++ p.1 ++ "\":" ++
      (match p.2 with
       | .str s => "\"" ++ s ++ "\""
       | .num n => toString n
       | .bool b => if b then "true" else "false"
       | .null => "null"
       | .undefined => "")
  "\x7b" ++
    String.intercalate "," ((ps.filter (fun p => p.2 ≠ .undefined)).map cell)
    ++ "\x7d"

/-- One optional query parameter. -/
def queryOpt (k : String) (v : Val) : List (String × String) :=
  match valToParamString v with
  | some s => [(k, s)]
  | none => []

/-- The query parameters `sendEvent` appends to the endpoint URL
(lines 531-538): `Object.entries(eventData)` in insertion order, skipping
`null` and `undefined` values. -/
def eventQueryParams (e : EventData) : List (String × String) :=
  queryOpt "unique_code" e.unique_code
    ++ [("event_type", e.event_type), ("timestamp", toString e.timestamp)]
    ++ queryOpt "session_id" e.session_id
    ++ [("platform", e.platform), ("url", e.url)]
    ++ queryOpt "device_id" e.device_id
    ++ queryOpt "user_id" e.user_id
    ++ queryOpt "amount" e.amount
    ++ queryOpt "currency" e.currency
    ++ [("additional_data", jsonStringify e.additional_data)]
    ++ (match e.app_code with | some a => [("app_code", a)] | none => [])
    ++ queryOpt "fingerprint" (valOfUndef e.fingerprint)
    ++ queryOpt "click_id" (valOfUndef e.click_id)
    ++ queryOpt "attribution_method" (valOfUndef e.attribution_method)

/-- `trackEvent` (lines 209-257).  Before initialization (with external
requests not disabled) the call only queues the ad hoc
`\x7b event_type, parameters, queued_at, retry_count: 0 \x7d` record and
returns.  Otherwise it builds the wire record, hands it to `sendEvent`, and
updates `lastEventTime`.  The second component of the result is the wire
record handed to the delivery pipeline, `none` when the call never reached
it.  The whole body sits in a try/catch; nothing in the modelled body can
throw, so the catch is unreachable and the call always returns `.ok`.
(The pixel fan-out at lines 247-250 is an external collaborator that catches
internally; it is not modelled.) -/
def trackEventE (st : SdkState) (name : String) (params : Record) (now : Nat)
    (url fp : String) (attr : Option (String × String)) (o : RequestOutcome) :
    Except Unit (SdkState × Option EventData) :=
  if !st.isInitialized && !st.config.disableExternalRequests then
    .ok ({ st with eventQueue := st.eventQueue ++ [⟨.preInit name params, 0, now⟩] },
         none)
  else
    .ok ({ st with
           eventQueue := (sendEvent st.config.disableExternalRequests
             st.eventQueue (.wire (buildEventData st now name params url))
             fp attr o now).1,
           lastEventTime := some now },
         some (buildEventData st now name params url))

/-- `trackPageView` (lines 262-269): no try/catch of its own; composes the
page parameters (DOM oracles `pathname`, `title`, `referrer`) and delegates to
`trackEvent`. -/
def trackPageViewE (st : SdkState) (path : Option String) (params : Record)
    (pathname title referrer : String) (now : Nat) (url fp : String)
    (attr : Option (String × String)) (o : RequestOutcome) :
    Except Unit (SdkState × Option EventData) := do
  trackEventE st "page_view"
    (spreadRecord
      [("page_path", .str (path.getD pathname)),
       ("page_title", .str title),
       ("referrer", .str referrer)] params)
    now url fp attr o

/-- The argument of `trackPurchase`. -/
structure PurchaseData where
  amount : Int
  currency : Option String
  productId : String
  transactionId : Option String
  additionalData : Record
  deriving DecidableEq, Repr

/-- `trackPurchase` (lines 274-282): no try/catch of its own;
`currency || 'USD'` treats an absent or empty currency as `USD`, and
`additionalData` is spread last, after the fixed fields. -/
def trackPurchaseE (st : SdkState) (p : PurchaseData) (now : Nat)
    (url fp : String) (attr : Option (String × String)) (o : RequestOutcome) :
    Except Unit (SdkState × Option EventData) := do
  let cur := match p.currency with
    | some s => if s = "" then "USD" else s
    | none => "USD"
  trackEventE st "purchase"
    (spreadRecord
      [("amount", .num p.amount),
       ("currency", .str cur),
       ("product_id", .str p.productId),
       ("transaction_id", valOfUndef p.transactionId)] p.additionalData)
    now url fp attr o

/-- `trackButtonClick` (lines 305-310): no try/catch of its own. -/
def trackButtonClickE (st : SdkState) (buttonId : String) (params : Record)
    (now : Nat) (url fp : String) (attr : Option (String × String))
    (o : RequestOutcome) : Except Unit (SdkState × Option EventData) := do
  trackEventE st "button_click"
    (spreadRecord [("button_id", .str buttonId)] params) now url fp attr o

/-- `trackFormSubmit` (lines 315-320): no try/catch of its own. -/
def trackFormSubmitE (st : SdkState) (formName : String) (params : Record)
    (now : Nat) (url fp : String) (attr : Option (String × String))
    (o : RequestOutcome) : Except Unit (SdkState × Option EventData) := do
  trackEventE st "form_submit"
    (spreadRecord [("form_name", .str formName)] params) now url fp attr o

/-- `setUserProperties` (lines 325-339): inside a try/catch, serialize the
bag into storage, then fire-and-forget a `user_properties_set` tracking event
(whose rejection is already ignored by `.catch`).  A storage throw lands in
the catch block, which only logs: the state keeps the mutations made so far
(none). -/
def setUserPropertiesE (st : SdkState) (props : Record) (now : Nat)
    (url fp : String) (attr : Option (String × String)) (o : RequestOutcome) :
    Except Unit SdkState :=
  match storeSet st.store (storageKeyBase st.config ++ "_user_props")
      (jsonStringify props) with
  | .error _ => .ok st
  | .ok store' =>
    match trackEventE { st with store := store' } "user_properties_set" props
        now url fp attr o with
    | .ok r => .ok r.1
    | .error _ => .ok { st with store := store' }

/-- `getUserProperties` (lines 447-455): inside a try/catch, read the stored
serialization and parse it; an absent key, the falsy empty string, a storage
throw, or a parse throw all yield the empty bag.  `parse` is the `JSON.parse`
oracle (`none` models a thrown parse error). -/
def getUserPropertiesE (parse : String → Option Record) (st : SdkState) :
    Except Unit Record :=
  match storeGet st.store (storageKeyBase st.config ++ "_user_props") with
  | .error _ => .ok []
  | .ok none => .ok []
  | .ok (some s) =>
    if s = "" then .ok []
    else
      match parse s with
      | some r => .ok r
      | none => .ok []

/-- `trackSessionEnd` (lines 460-468): returns silently when no session was
started; otherwise delegates to `trackEvent` with the session duration. -/
def trackSessionEndE (st : SdkState) (now : Nat) (url fp : String)
    (attr : Option (String × String)) (o : RequestOutcome) :
    Except Unit (SdkState × Option EventData) :=
  match st.sessionStartTime with
  | none => .ok (st, none)
  | some t0 =>
    trackEventE st "session_end"
      [("duration", .num (Int.ofNat (now - t0))),
       ("session_id", valOfNullable st.sessionId)]
      now url fp attr o

/-- The device-id portion of `collectDeviceInfo` (lines 472-498): read the
persisted device id, generating and persisting `dev_<now>_<random>` when
absent.  The function has no try/catch of its own, so a storage throw
propagates to the caller (`initialize`'s outer catch).  The browser-derived
fields (user agent, screen metrics, timezone, ...) are environment oracles and
are not modelled. -/
def collectDeviceInfo (keyBase : String) (store : Store) (now : Nat)
    (rng : Rng) : Except Unit (String × Store × Rng) :=
  match storeGet store (keyBase ++ "_device_id") with
  | .error _ => .error ()
  | .ok v =>
    match v with
    | some id =>
      if id = "" then
        match storeSet store (keyBase ++ "_device_id")
            ("dev_" ++ toString now ++ "_" ++ rng.next.1) with
        | .error _ => .error ()
        | .ok store' =>
          .ok ("dev_" ++ toString now ++ "_" ++ rng.next.1, store', rng.next.2)
      else .ok (id, store, rng)
    | none =>
      match storeSet store (keyBase ++ "_device_id")
          ("dev_" ++ toString now ++ "_" ++ rng.next.1) with
      | .error _ => .error ()
      | .ok store' =>
        .ok ("dev_" ++ toString now ++ "_" ++ rng.next.1, store', rng.next.2)

/-- The state right after `initialize` restores the session id and stamps the
clocks (lines 145-148), paired with the advanced entropy. -/
def initStamp (st : SdkState) (now : Nat) (rng : Rng) : SdkState × Rng :=
  ({ st with
     sessionId := some (getOrCreateSessionId (storageKeyBase st.config)
       st.store now rng).1,
     sessionStartTime := some now,
     lastEventTime := some now,
     pageStartTime := now,
     store := (getOrCreateSessionId (storageKeyBase st.config)
       st.store now rng).2.1 },
   (getOrCreateSessionId (storageKeyBase st.config) st.store now rng).2.2)

/-- The state of `initialize` after device-info collection succeeded with `d`
and the queued events were drained (lines 150-171). -/
def initDrained (st : SdkState) (now : Nat) (rng : Rng)
    (d : String × Store × Rng) (fp : String) (attr : Option (String × String))
    (drainOutcomes : List RequestOutcome) : SdkState :=
  (processEventQueue
    { (initStamp st now rng).1 with deviceId := some d.1, store := d.2.1 }
    fp attr drainOutcomes now).1

/-- `initialize` (lines 131-204): restore-or-create the session id, stamp the
session clocks, collect the device id (which may throw into the outer catch:
the catch only logs and leaves `isInitialized = false`, degraded mode), drain
the queued events (its own sub-try), and track `page_load` (its own sub-try)
before marking the instance initialized.  The deep-link attribution check,
pixel loading, DOM auto-tracking wiring and console interception are external
collaborators that catch internally; they are elided.  The outer catch makes
every result `.ok`. -/
def initializeE (st : SdkState) (now : Nat) (rng : Rng) (url fp : String)
    (attr : Option (String × String)) (drainOutcomes : List RequestOutcome)
    (pageLoadOutcome : RequestOutcome) : Except Unit SdkState :=
  if st.isInitialized then .ok st
  else
    match collectDeviceInfo (storageKeyBase st.config)
        (initStamp st now rng).1.store now (initStamp st now rng).2 with
    | .error _ =>
      -- outer catch: degraded mode, the partial mutations survive
      .ok { (initStamp st now rng).1 with isInitialized := false }
    | .ok d =>
      match trackEventE (initDrained st now rng d fp attr drainOutcomes)
          "page_load"
          (spreadRecord
            [("session_id", valOfNullable
                (initDrained st now rng d fp attr drainOutcomes).sessionId),
             ("platform", .str "web")]
            [("device_id", valOfUndef
                (initDrained st now rng d fp attr drainOutcomes).deviceId)])
          now url fp attr pageLoadOutcome with
      | .ok r => .ok { r.1 with isInitialized := true }
      | .error _ =>
        .ok { initDrained st now rng d fp attr drainOutcomes with
              isInitialized := true }

/-- The state right after `updateSessionIfNeeded` reassigns the session id
and restarts the clocks (lines 752-755). -/
def rotatedState (st : SdkState) (now : Nat) (rng : Rng) : SdkState :=
  { st with
    sessionId := some (getOrCreateSessionId (storageKeyBase st.config)
      st.store now rng).1,
    sessionStartTime := some now,
    pageStartTime := now,
    store := (getOrCreateSessionId (storageKeyBase st.config)
      st.store now rng).2.1 }

/-- `updateSessionIfNeeded` (lines 746-762), reached from the visibility
handler: nothing happens until `sessionTimeout` is strictly exceeded; then the
session id is reassigned from `getOrCreateSessionId`, the clocks restart, and
a `session_start` event carrying `returning_user: true` is tracked (with its
rejection ignored).  Returns the new state, the advanced entropy, and the
tracked `session_start` record. -/
def updateSessionIfNeeded (st : SdkState) (now : Nat) (rng : Rng)
    (url fp : String) (attr : Option (String × String)) (o : RequestOutcome) :
    SdkState × Rng × Option EventData :=
  match st.lastEventTime with
  | none => (st, rng, none)
  | some lt =>
    if sessionTimeoutMs < now - lt then
      match trackEventE (rotatedState st now rng) "session_start"
          [("session_id", valOfNullable (rotatedState st now rng).sessionId),
           ("returning_user", .bool true)] now url fp attr o with
      | .ok r =>
        (r.1,
         (getOrCreateSessionId (storageKeyBase st.config) st.store now rng).2.2,
         r.2)
      | .error _ =>
        (rotatedState st now rng,
         (getOrCreateSessionId (storageKeyBase st.config) st.store now rng).2.2,
         none)
    else (st, rng, none)

/-! ## The React Native event builder (`src/react-native/index.js`) -/

/-- The event record built by the React Native `trackEvent` (lines 78-86):
the fixed context object literal with the caller's parameters spread over it,
so a caller parameter with a context field's name overwrites that field. -/
def rnTrackEventData (affiliateCode appCode : Val) (eventName : String)
    (now : Nat) (sessionId : Val) (params : Record) : Record :=
  spreadRecord
    [("affiliate_code", affiliateCode),
     ("app_code", appCode),
     ("event", .str eventName),
     ("timestamp", .num (Int.ofNat now)),
     ("session_id", sessionId),
     ("platform", .str "react-native")]
    params

/-! ## Helper lemmas -/

theorem lookupField_setField_self (r : Record) (k : String) (v : Val) :
    lookupField (setField r k v) k = some v := by
  induction r with
  | nil => simp [setField, lookupField]
  | cons p rest ih =>
    by_cases h : p.1 == k
    · simp [setField, h, lookupField, List.find?_cons, h]
    · simp only [setField, h, if_neg]
      simpa [lookupField, List.find?_cons, h] using ih

theorem lookupField_setField_other (r : Record) (k k' : String) (v : Val)
    (hne : k' ≠ k) : lookupField (setField r k' v) k = lookupField r k := by
  induction r with
  | nil => simp [setField, lookupField, hne]
  | cons p rest ih =>
    by_cases h : p.1 == k'
    · have hpk : ¬(p.1 == k) := by
        simp only [beq_iff_eq] at h ⊢
        simp [h, hne]
      simp [setField, h, lookupField, List.find?_cons, hpk]
    · by_cases hpk : p.1 == k
      · simp [setField, h, lookupField, List.find?_cons, hpk]
      · simp only [setField, h, if_neg]
        simpa [lookupField, List.find?_cons, hpk] using ih

theorem spreadRecord_append (a b : Record) (x : String × Val) :
    spreadRecord a (b ++ [x]) = setField (spreadRecord a b) x.1 x.2 := by
  simp [spreadRecord, List.foldl_append]

theorem getField_spreadRecord_last (a b : Record) (k : String) (v : Val) :
    getField (spreadRecord a (b ++ [(k, v)])) k = v := by
  simp [spreadRecord_append, getField, lookupField_setField_self]

theorem lookupStr_setStr_self (entries : List (String × String))
    (k v : String) : lookupStr (setStr entries k v) k = some v := by
  induction entries with
  | nil => simp [setStr, lookupStr]
  | cons p rest ih =>
    by_cases h : p.1 == k
    · simp [setStr, h, lookupStr, List.find?_cons, h]
    · simp only [setStr, h, if_neg]
      simpa [lookupStr, List.find?_cons, h] using ih

/-- The queue effect of one `sendEvent` call: unchanged on success, one
appended entry with `retry_count = 0` on failure. -/
theorem sendEvent_queue_cases (dis : Bool) (q : List QueueEntry)
    (ev : QueuedEvent) (fp : String) (attr : Option (String × String))
    (o : RequestOutcome) (now : Nat) :
    (sendEvent dis q ev fp attr o now).1 = q ∨
    (sendEvent dis q ev fp attr o now).1
      = q ++ [⟨enrichQueued ev fp attr, 0, now⟩] := by
  unfold sendEvent
  cases makeRequest dis o <;> simp

/-- A drain pass attempts exactly the snapshot entries whose `retry_count` is
below 3, in order, each enriched as `sendEvent` would dispatch it. -/
theorem drainLoop_attempts (dis : Bool) (fp : String)
    (attr : Option (String × String)) (now : Nat) :
    ∀ (entries : List QueueEntry) (os : List RequestOutcome)
      (acc : List QueueEntry) (atts : List QueuedEvent),
    (drainLoop dis fp attr now entries os acc atts).2
      = atts ++ (entries.filter (fun e => e.retry_count < 3)).map
          (fun e => enrichQueued e.data fp attr) := by
  intro entries
  induction entries with
  | nil => intro os acc atts; simp [drainLoop]
  | cons e rest ih =>
    intro os acc atts
    by_cases h : e.retry_count < 3
    · simp [drainLoop, h, ih, List.filter_cons]
    · simp [drainLoop, h, ih, List.filter_cons]

/-- Everything the drain loop leaves in the rebuilt queue either was in the
accumulator already or is a fresh `retry_count = 0` re-queue of an attempted
(`retry_count < 3`) snapshot entry. -/
theorem drainLoop_queue_mem (dis : Bool) (fp : String)
    (attr : Option (String × String)) (now : Nat) :
    ∀ (entries : List QueueEntry) (os : List RequestOutcome)
      (acc : List QueueEntry) (atts : List QueuedEvent)
      (x : QueueEntry),
    x ∈ (drainLoop dis fp attr now entries os acc atts).1 →
    x ∈ acc ∨ (x.retry_count = 0 ∧ x.queued_at = now ∧
      ∃ e ∈ entries, e.retry_count < 3 ∧ x.data = enrichQueued e.data fp attr) := by
  intro entries
  induction entries with
  | nil => intro os acc atts x hx; simp [drainLoop] at hx; exact Or.inl hx
  | cons e rest ih =>
    intro os acc atts x hx
    by_cases h : e.retry_count < 3
    · simp only [drainLoop, h, if_pos] at hx
      rcases ih _ _ _ x hx with hmem | hnew
      · rcases sendEvent_queue_cases dis acc e.data fp attr (os.headD .xhrError) now
          with hq | hq
        · rw [hq] at hmem; exact Or.inl hmem
        · rw [hq] at hmem
          rcases List.mem_append.mp hmem with hacc | hsingle
          · exact Or.inl hacc
          · right
            rcases List.mem_singleton.mp hsingle with rfl
            exact ⟨rfl, rfl, e, List.mem_cons_self e rest, h, rfl⟩
      · rcases hnew with ⟨h0, hq, e', he', hlt, hdata⟩
        exact Or.inr ⟨h0, hq, e', List.mem_cons_of_mem _ he', hlt, hdata⟩
    · simp only [drainLoop, h, if_neg, not_false_iff] at hx
      rcases ih _ _ _ x hx with hmem | hnew
      · exact Or.inl hmem
      · rcases hnew with ⟨h0, hq, e', he', hlt, hdata⟩
        exact Or.inr ⟨h0, hq, e', List.mem_cons_of_mem _ he', hlt, hdata⟩

/-- The retry queues reachable from a fresh instance through the three
operations of the source that touch `this.eventQueue`: the pre-initialization
push in `trackEvent`, the failure push in `sendEvent`, and a full
`processEventQueue` pass. -/
inductive QueueReach : List QueueEntry → Prop where
  | nil : QueueReach []
  | trackPreInit (q : List QueueEntry) (name : String) (ps : Record) (now : Nat) :
      QueueReach q → QueueReach (q ++ [⟨.preInit name ps, 0, now⟩])
  | send (dis : Bool) (q : List QueueEntry) (ev : QueuedEvent) (fp : String)
      (attr : Option (String × String)) (o : RequestOutcome) (now : Nat) :
      QueueReach q → QueueReach (sendEvent dis q ev fp attr o now).1
  | drain (dis : Bool) (fp : String) (attr : Option (String × String))
      (os : List RequestOutcome) (now : Nat) (q : List QueueEntry) :
      QueueReach q → QueueReach (drainQueue dis fp attr os now q).1

/-- A generated session id is never the empty string (used for the falsiness
check on re-reads). -/
theorem sess_ne_empty (a b : String) : "sess_" ++ a ++ "_" ++ b ≠ "" := by
  intro h
  have hl := congrArg String.length h
  simp [String.length_append] at hl
  exact absurd hl.1.2 (by decide)

/-- `sendEvent`'s pre-dispatch mutations never touch `unique_code`. -/
theorem enrichEvent_unique_code (e : EventData) (fp : String)
    (attr : Option (String × String)) :
    (enrichEvent e fp attr).unique_code = e.unique_code := by
  unfold enrichEvent
  cases attr <;> cases h : e.fingerprint.isNone <;> simp [h]

/-- A concrete wire event used by the concrete-input theorems. -/
def sampleEvent : EventData :=
  { unique_code := .str "AC", event_type := "purchase", timestamp := 50
  , session_id := .str "sess_1", platform := "web", url := "https://app.example/p"
  , device_id := .str "dev_1", user_id := .undefined, amount := .num 10
  , currency := .str "USD"
  , additional_data := [("amount", .num 10), ("currency", .str "USD")]
  , app_code := none, fingerprint := none, click_id := none
  , attribution_method := none }

/-! ## The claims -/

/-- Concrete instance for the session-rotation scenario of C1: the persisted
session id is `sess_old`, the last event happened at `t = 1000`, and the next
activity arrives at `t = 1801001`, i.e. `sessionTimeoutMs + 1` milliseconds
later. -/
def c1State : SdkState :=
  { config := { affiliateCode := some "AC", appCode := none, debug := false,
                disableExternalRequests := false }
  , sessionId := some "sess_old"
  , sessionStartTime := some 1000
  , lastEventTime := some 1000
  , pageStartTime := 1000
  , isInitialized := true
  , deviceId := some "dev_1"
  , eventQueue := []
  , store := .ok [("affiliate_sdk_AC_session", "sess_old")] }

/-- C1 (code bug, demonstrated at the failing input): with the last event a
full `sessionTimeoutMs + 1` in the past, the next tracked event still carries
the old session id — `trackEvent` never consults the timeout — and even the
visibility-triggered `updateSessionIfNeeded`, whose comment says "Start new
session", reassigns the session id through `getOrCreateSessionId`, which
returns the persisted old id (nothing ever clears the stored key), so no new
session id is ever produced.  Only the returning-user half of the claim holds:
the `session_start` record emitted on that path does carry
`returning_user: true` — with the unchanged id. -/
theorem c1_session_rotation_bug :
    (trackEventE c1State "tap" [] 1801001 "https://x.example/p" "fp" none
        (.fetchOk 200)
      = .ok ({ c1State with lastEventTime := some 1801001 },
             some (buildEventData c1State 1801001 "tap" [] "https://x.example/p")))
  ∧ (buildEventData c1State 1801001 "tap" [] "https://x.example/p").session_id
      = .str "sess_old"
  ∧ sessionTimeoutMs < 1801001 - 1000
  ∧ (updateSessionIfNeeded c1State 1801001 ⟨["r1"]⟩ "https://x.example/p" "fp"
        none (.fetchOk 200)).1.sessionId = some "sess_old"
  ∧ ((updateSessionIfNeeded c1State 1801001 ⟨["r1"]⟩ "https://x.example/p" "fp"
        none (.fetchOk 200)).2.2.map EventData.additional_data)
      = some [("session_id", .str "sess_old"), ("returning_user", .bool true)] :=
  ⟨rfl, rfl, by decide, rfl, rfl⟩

/-- C2 (code bug, demonstrated at the failing input): a queue entry with
`retry_count = 0` whose drain attempt fails (fetch threw, XHR `onerror`) is
re-queued with `retry_count = 0` again, not `0 + 1`: `sendEvent` swallows the
failure internally and enqueues afresh at zero, so the
`retry_count: event.retry_count + 1` branch in `processEventQueue`'s catch is
unreachable and a retry count is reset without the record being removed. -/
theorem c2_retry_reset_bug :
    drainQueue false "fp0" none [.xhrError] 60 [⟨.wire sampleEvent, 0, 50⟩]
      = ([⟨.wire { sampleEvent with fingerprint := some "fp0" }, 0, 60⟩],
         [.wire { sampleEvent with fingerprint := some "fp0" }])
  ∧ ((drainQueue false "fp0" none [.xhrError] 60
        [⟨.wire sampleEvent, 0, 50⟩]).1.map QueueEntry.retry_count) = [0] :=
  ⟨rfl, rfl⟩

/-- Everything in a drained queue is a fresh `retry_count = 0` re-queue of an
attempted (`retry_count < 3`) snapshot entry. -/
theorem drainQueue_mem (dis : Bool) (fp : String)
    (attr : Option (String × String)) (os : List RequestOutcome) (now : Nat)
    (q : List QueueEntry) (x : QueueEntry)
    (hx : x ∈ (drainQueue dis fp attr os now q).1) :
    x.retry_count = 0 ∧ x.queued_at = now ∧
      ∃ e ∈ q, e.retry_count < 3 ∧ x.data = enrichQueued e.data fp attr := by
  unfold drainQueue at hx
  by_cases hq : q = []
  · rw [if_pos hq] at hx
    simp at hx
  · rw [if_neg hq] at hx
    rcases drainLoop_queue_mem dis fp attr now q os [] [] x hx with hmem | hnew
    · simp at hmem
    · exact hnew

/-- C3: a drain attempts exactly the snapshot entries with `retry_count < 3`
(entries at or above the cap of 3 generate no delivery attempt); everything
in the rebuilt queue is a `retry_count = 0` re-queue of one of those attempted
entries, so a dropped entry is never re-added — by this or any later drain —
and every queue reachable through the source's three queue operations holds
only entries with `retry_count ≤ 3`. -/
theorem c3_drop_at_cap :
    (∀ (dis : Bool) (fp : String) (attr : Option (String × String))
       (os : List RequestOutcome) (now : Nat) (q : List QueueEntry),
       (drainQueue dis fp attr os now q).2
         = (q.filter (fun e => e.retry_count < 3)).map
             (fun e => enrichQueued e.data fp attr))
  ∧ (∀ (dis : Bool) (fp : String) (attr : Option (String × String))
       (os : List RequestOutcome) (now : Nat) (q : List QueueEntry)
       (x : QueueEntry),
       x ∈ (drainQueue dis fp attr os now q).1 →
       x.retry_count = 0 ∧ x.queued_at = now ∧
         ∃ e ∈ q, e.retry_count < 3 ∧ x.data = enrichQueued e.data fp attr)
  ∧ (∀ q, QueueReach q → ∀ x ∈ q, x.retry_count ≤ 3) := by
  refine ⟨?_, ?_, ?_⟩
  · intro dis fp attr os now q
    unfold drainQueue
    by_cases hq : q = []
    · rw [if_pos hq, hq]; simp
    · rw [if_neg hq, drainLoop_attempts]; simp
  · exact fun dis fp attr os now q x hx => drainQueue_mem dis fp attr os now q x hx
  · intro q hq
    induction hq with
    | nil => intro x hx; simp at hx
    | trackPreInit q name ps now _ ih =>
      intro x hx
      rcases List.mem_append.mp hx with hold | hnewx
      · exact ih x hold
      · rcases List.mem_singleton.mp hnewx with rfl
        exact Nat.zero_le 3
    | send dis q ev fp attr o now _ ih =>
      intro x hx
      rcases sendEvent_queue_cases dis q ev fp attr o now with hc | hc
      · rw [hc] at hx; exact ih x hx
      · rw [hc] at hx
        rcases List.mem_append.mp hx with hold | hnewx
        · exact ih x hold
        · rcases List.mem_singleton.mp hnewx with rfl
          exact Nat.zero_le 3
    | drain dis fp attr os now q _ _ =>
      intro x hx
      have h0 := (drainQueue_mem dis fp attr os now q x hx).1
      omega

/-- Witness for C3 at a concrete queue: a drain of a queue holding an entry
at `retry_count = 5` and one at `retry_count = 0` attempts only the second;
the surviving entry re-queued at `retry_count = 0` originates from the
attempted entry; and a reachable one-entry queue respects the cap. -/
theorem c3_drop_at_cap_witness :
    ((drainQueue false "f" none [.xhrError] 9
        [⟨.preInit "a" [], 5, 1⟩, ⟨.preInit "b" [], 0, 1⟩]).2
      = [.preInit "b" []])
  ∧ ((⟨.preInit "b" [], 0, 9⟩ : QueueEntry).retry_count = 0 ∧
     (⟨.preInit "b" [], 0, 9⟩ : QueueEntry).queued_at = 9 ∧
     ∃ e ∈ [(⟨.preInit "a" [], 5, 1⟩ : QueueEntry), ⟨.preInit "b" [], 0, 1⟩],
       e.retry_count < 3 ∧
       (⟨.preInit "b" [], 0, 9⟩ : QueueEntry).data = enrichQueued e.data "f" none)
  ∧ (∀ x ∈ [(⟨.preInit "a" [], 0, 1⟩ : QueueEntry)], x.retry_count ≤ 3) := by
  refine ⟨?_, ?_, ?_⟩
  · rw [c3_drop_at_cap.1 false "f" none [.xhrError] 9
      [⟨.preInit "a" [], 5, 1⟩, ⟨.preInit "b" [], 0, 1⟩]]
    decide
  · exact c3_drop_at_cap.2.1 false "f" none [.xhrError] 9
      [⟨.preInit "a" [], 5, 1⟩, ⟨.preInit "b" [], 0, 1⟩]
      ⟨.preInit "b" [], 0, 9⟩ (by decide)
  · exact c3_drop_at_cap.2.2 [⟨.preInit "a" [], 0, 1⟩]
      (by simpa using QueueReach.trackPreInit [] "a" [] 1 QueueReach.nil)

/-- C4 counterexample: an HTTP 500 — a response whose status is observable and
outside 200–299, with its computed `ok` flag `false` — is treated as a
delivered event: `sendEvent` checks only that a response object came back,
so nothing falls through to another channel and nothing is queued, where the
claim requires the failure path (one queue entry at `retry_count = 0`). -/
theorem c4_status_counterexample :
    makeRequest false (.fetchOk 500) = some ⟨500⟩
  ∧ HttpResponse.okFlag ⟨500⟩ = false
  ∧ sendEvent false [] (.wire sampleEvent) "fp0" none (.fetchOk 500) 7
      = ([], true) :=
  ⟨rfl, rfl, rfl⟩

/-- C4 as amended: a thrown `fetch` falls through to the XHR channel (the
`xhr*` outcomes); an XHR network error or timeout yields no response and
counts as failure; any completed HTTP response counts as success regardless of
status; and exactly when no response was obtained (or external requests are
disabled) the record is appended to the retry queue exactly once, with
`retryCount = 0` and `queuedAt` the current time. -/
theorem c4_amended :
    (∀ (dis : Bool) (q : List QueueEntry) (ev : QueuedEvent) (fp : String)
       (attr : Option (String × String)) (o : RequestOutcome) (now : Nat),
       sendEvent dis q ev fp attr o now
         = if (makeRequest dis o).isSome then (q, true)
           else (q ++ [⟨enrichQueued ev fp attr, 0, now⟩], false))
  ∧ (∀ o : RequestOutcome,
       (makeRequest false o).isSome
         = (match o with
            | .fetchOk _ => true
            | .xhrLoad _ => true
            | .xhrError => false
            | .xhrTimeout => false))
  ∧ (∀ o : RequestOutcome, makeRequest true o = none) := by
  refine ⟨?_, ?_, ?_⟩
  · intro dis q ev fp attr o now
    unfold sendEvent
    cases h : makeRequest dis o <;> simp [h]
  · intro o; cases o <;> rfl
  · intro o; rfl

/-- C5 counterexample (React Native `trackEvent`, `src/react-native/index.js`
lines 78-86): a caller-supplied `session_id` parameter overrides the
builder's current session id in the built record. -/
theorem c5_override_counterexample :
    getField (rnTrackEventData (.str "AC") (.str "APP") "screen_view" 100
        (.str "sess_live") [("session_id", .str "sess_spoofed")]) "session_id"
      = .str "sess_spoofed"
  ∧ (Val.str "sess_spoofed") ≠ .str "sess_live" :=
  ⟨rfl, by decide⟩

/-- C5 as amended: in the web SDK the builder's `session_id`, `timestamp` and
`platform` always equal its own values, for every caller-supplied parameter
bag (caller parameters are confined to `additional_data` and the
`user_id`/`amount`/`currency` lifts); in the React Native SDK the caller's
parameters are spread over the context, so a caller-supplied parameter of any
context field's name — in particular `session_id`, `timestamp`, `platform` —
overrides the builder's value. -/
theorem c5_amended :
    (∀ (st : SdkState) (now : Nat) (name : String) (ps : Record) (url : String),
       (buildEventData st now name ps url).session_id = valOfNullable st.sessionId
     ∧ (buildEventData st now name ps url).timestamp = now
     ∧ (buildEventData st now name ps url).platform = "web")
  ∧ (∀ (ac app : Val) (name : String) (now : Nat) (sid : Val) (ps : Record)
       (k : String) (v : Val),
       getField (rnTrackEventData ac app name now sid (ps ++ [(k, v)])) k = v) := by
  constructor
  · intro st now name ps url
    exact ⟨rfl, rfl, rfl⟩
  · intro ac app name now sid ps k v
    exact getField_spreadRecord_last _ ps k v

/-- Concrete instance for C6: the identifying code was never supplied. -/
def c6State : SdkState :=
  { config := { affiliateCode := none, appCode := none, debug := false,
                disableExternalRequests := false }
  , sessionId := some "sess_1"
  , sessionStartTime := some 10
  , lastEventTime := some 10
  , pageStartTime := 10
  , isInitialized := true
  , deviceId := some "dev_1"
  , eventQueue := []
  , store := .ok [] }

/-- C6 counterexample: with the identifying code unset, a track call is not
rejected and produces no error — the record is built with
`unique_code = undefined`, handed to the delivery pipeline (here delivered on
the first channel), and the `unique_code` field is silently dropped from the
wire query parameters. -/
theorem c6_no_rejection_counterexample :
    trackEventE c6State "signup" [] 100 "https://x.example/p" "fp" none
        (.fetchOk 200)
      = .ok ({ c6State with lastEventTime := some 100 },
             some (buildEventData c6State 100 "signup" [] "https://x.example/p"))
  ∧ (buildEventData c6State 100 "signup" [] "https://x.example/p").unique_code
      = .undefined
  ∧ (((eventQueryParams (enrichEvent
        (buildEventData c6State 100 "signup" [] "https://x.example/p")
        "fp" none)).map Prod.fst).contains "unique_code") = false :=
  ⟨rfl, rfl, rfl⟩

/-- C6 as amended: no identifying-code validation exists.  A track call made
with `affiliateCode` unset proceeds exactly like any other call — the record
is built (with `unique_code = undefined`), enters the delivery pipeline, the
call returns without error, and the only trace is that the `unique_code`
field contributes nothing to the wire query parameters. -/
theorem c6_amended :
    ∀ (st : SdkState) (name : String) (ps : Record) (now : Nat)
      (url fp : String) (attr : Option (String × String)) (o : RequestOutcome),
    st.config.affiliateCode = none → st.isInitialized = true →
    (trackEventE st name ps now url fp attr o
       = .ok ({ st with
                eventQueue := (sendEvent st.config.disableExternalRequests
                  st.eventQueue (.wire (buildEventData st now name ps url))
                  fp attr o now).1,
                lastEventTime := some now },
              some (buildEventData st now name ps url)))
    ∧ queryOpt "unique_code"
        ((enrichEvent (buildEventData st now name ps url) fp attr).unique_code)
      = [] := by
  intro st name ps now url fp attr o hcode hinit
  constructor
  · unfold trackEventE
    rw [hinit]
    simp
  · rw [enrichEvent_unique_code]
    show queryOpt "unique_code" (valOfUndef st.config.affiliateCode) = []
    rw [hcode]
    rfl

/-- Witness for C6 as amended, at the concrete unset-code instance. -/
theorem c6_amended_witness :
    (trackEventE c6State "signup" [] 100 "https://x.example/p" "fp" none
        (.fetchOk 200)
       = .ok ({ c6State with
                eventQueue := (sendEvent c6State.config.disableExternalRequests
                  c6State.eventQueue
                  (.wire (buildEventData c6State 100 "signup" []
                    "https://x.example/p")) "fp" none (.fetchOk 200) 100).1,
                lastEventTime := some 100 },
              some (buildEventData c6State 100 "signup" [] "https://x.example/p")))
    ∧ queryOpt "unique_code"
        ((enrichEvent (buildEventData c6State 100 "signup" [] "https://x.example/p")
          "fp" none).unique_code)
      = [] :=
  c6_amended c6State "signup" [] 100 "https://x.example/p" "fp" none
    (.fetchOk 200) rfl rfl

/-- `trackEvent` always returns normally: both branches end in `.ok`. -/
theorem trackEventE_isOk (st : SdkState) (name : String) (ps : Record)
    (now : Nat) (url fp : String) (attr : Option (String × String))
    (o : RequestOutcome) : isOkE (trackEventE st name ps now url fp attr o) = true := by
  unfold trackEventE
  split <;> rfl

/-- C7: none of the nine public entrypoints can surface an error into the
host application, for every instance state (including a throwing storage) and
every transport outcome: `initialize`, `trackEvent`, `setUserProperties` and
`getUserProperties` catch at top level, and the remaining wrappers delegate to
`trackEvent`, which never rejects. -/
theorem c7_entrypoints_never_raise :
    (∀ (st : SdkState) (now : Nat) (rng : Rng) (url fp : String)
       (attr : Option (String × String)) (os : List RequestOutcome)
       (o : RequestOutcome),
       isOkE (initializeE st now rng url fp attr os o) = true)
  ∧ (∀ (st : SdkState) (name : String) (ps : Record) (now : Nat)
       (url fp : String) (attr : Option (String × String)) (o : RequestOutcome),
       isOkE (trackEventE st name ps now url fp attr o) = true)
  ∧ (∀ (st : SdkState) (path : Option String) (ps : Record)
       (pathname title referrer : String) (now : Nat) (url fp : String)
       (attr : Option (String × String)) (o : RequestOutcome),
       isOkE (trackPageViewE st path ps pathname title referrer now url fp attr o)
         = true)
  ∧ (∀ (st : SdkState) (p : PurchaseData) (now : Nat) (url fp : String)
       (attr : Option (String × String)) (o : RequestOutcome),
       isOkE (trackPurchaseE st p now url fp attr o) = true)
  ∧ (∀ (st : SdkState) (b : String) (ps : Record) (now : Nat) (url fp : String)
       (attr : Option (String × String)) (o : RequestOutcome),
       isOkE (trackButtonClickE st b ps now url fp attr o) = true)
  ∧ (∀ (st : SdkState) (f : String) (ps : Record) (now : Nat) (url fp : String)
       (attr : Option (String × String)) (o : RequestOutcome),
       isOkE (trackFormSubmitE st f ps now url fp attr o) = true)
  ∧ (∀ (st : SdkState) (props : Record) (now : Nat) (url fp : String)
       (attr : Option (String × String)) (o : RequestOutcome),
       isOkE (setUserPropertiesE st props now url fp attr o) = true)
  ∧ (∀ (parse : String → Option Record) (st : SdkState),
       isOkE (getUserPropertiesE parse st) = true)
  ∧ (∀ (st : SdkState) (now : Nat) (url fp : String)
       (attr : Option (String × String)) (o : RequestOutcome),
       isOkE (trackSessionEndE st now url fp attr o) = true) := by
  refine ⟨?_, ?_, ?_, ?_, ?_, ?_, ?_, ?_, ?_⟩
  · intro st now rng url fp attr os o
    unfold initializeE
    split
    · rfl
    · split
      · rfl
      · split <;> rfl
  · exact trackEventE_isOk
  · intro st path ps pathname title referrer now url fp attr o
    unfold trackPageViewE
    exact trackEventE_isOk _ _ _ _ _ _ _ _
  · intro st p now url fp attr o
    unfold trackPurchaseE
    exact trackEventE_isOk _ _ _ _ _ _ _ _
  · intro st b ps now url fp attr o
    unfold trackButtonClickE
    exact trackEventE_isOk _ _ _ _ _ _ _ _
  · intro st f ps now url fp attr o
    unfold trackFormSubmitE
    exact trackEventE_isOk _ _ _ _ _ _ _ _
  · intro st props now url fp attr o
    unfold setUserPropertiesE
    split
    · rfl
    · split <;> rfl
  · intro parse st
    unfold getUserPropertiesE
    split
    · rfl
    · rfl
    · split
      · rfl
      · split <;> rfl
  · intro st now url fp attr o
    unfold trackSessionEndE
    split
    · rfl
    · exact trackEventE_isOk _ _ _ _ _ _ _ _

/-- `getOrCreateSessionId` with a working store holding a non-falsy id:
returns it, touching nothing. -/
theorem getOrCreateSessionId_present (entries : List (String × String))
    (keyBase : String) (now : Nat) (rng : Rng) (s : String)
    (h : lookupStr entries (keyBase ++ "_session") = some s) (hs : ¬s = "") :
    getOrCreateSessionId keyBase (.ok entries) now rng = (s, .ok entries, rng) := by
  unfold getOrCreateSessionId storeGet
  simp only [h]
  rw [if_neg hs]

/-- `getOrCreateSessionId` with a working store and no persisted id:
generates a fresh id and persists it. -/
theorem getOrCreateSessionId_absent (entries : List (String × String))
    (keyBase : String) (now : Nat) (rng : Rng)
    (h : lookupStr entries (keyBase ++ "_session") = none) :
    getOrCreateSessionId keyBase (.ok entries) now rng
      = ("sess_" ++ toString now ++ "_" ++ rng.next.1,
         .ok (setStr entries (keyBase ++ "_session")
           ("sess_" ++ toString now ++ "_" ++ rng.next.1)),
         rng.next.2) := by
  unfold getOrCreateSessionId storeGet storeSet
  simp only [h]

/-- `getOrCreateSessionId` with a working store holding the falsy empty
string: behaves like the absent case. -/
theorem getOrCreateSessionId_empty (entries : List (String × String))
    (keyBase : String) (now : Nat) (rng : Rng)
    (h : lookupStr entries (keyBase ++ "_session") = some "") :
    getOrCreateSessionId keyBase (.ok entries) now rng
      = ("sess_" ++ toString now ++ "_" ++ rng.next.1,
         .ok (setStr entries (keyBase ++ "_session")
           ("sess_" ++ toString now ++ "_" ++ rng.next.1)),
         rng.next.2) := by
  unfold getOrCreateSessionId storeGet storeSet
  simp only [h, if_pos]

/-- C8 counterexample: against a throwing storage, each call lands in the
catch block and returns a freshly generated, non-persisted id, so two
immediately consecutive calls return two different generated ids — the
claim's "never two different generated ids" fails on the storage-failure
state. -/
theorem c8_racing_ids_counterexample :
    (getOrCreateSessionId "affiliate_sdk_AC" .broken 5
        ⟨["aaaaaaaaa", "bbbbbbbbb"]⟩).1 = "sess_5_aaaaaaaaa"
  ∧ (getOrCreateSessionId "affiliate_sdk_AC"
        (getOrCreateSessionId "affiliate_sdk_AC" .broken 5
          ⟨["aaaaaaaaa", "bbbbbbbbb"]⟩).2.1
        5
        (getOrCreateSessionId "affiliate_sdk_AC" .broken 5
          ⟨["aaaaaaaaa", "bbbbbbbbb"]⟩).2.2).1 = "sess_5_bbbbbbbbb"
  ∧ ("sess_5_aaaaaaaaa" : String) ≠ "sess_5_bbbbbbbbb" :=
  ⟨rfl, rfl, by decide⟩

/-- C8 as amended: whenever the Local State Store is functioning, two
consecutive `getOrCreateSessionId` calls return the same id — never two
different generated ids — and after the first call the id it returned is the
persisted one; only when the storage throws does each call fall back to a
fresh, non-persisted id (see the counterexample). -/
theorem c8_amended :
    ∀ (entries : List (String × String)) (keyBase : String) (now1 now2 : Nat)
      (rng1 rng2 : Rng),
    (getOrCreateSessionId keyBase
        (getOrCreateSessionId keyBase (.ok entries) now1 rng1).2.1 now2 rng2).1
      = (getOrCreateSessionId keyBase (.ok entries) now1 rng1).1
    ∧ storeGet (getOrCreateSessionId keyBase (.ok entries) now1 rng1).2.1
        (keyBase ++ "_session")
      = .ok (some (getOrCreateSessionId keyBase (.ok entries) now1 rng1).1) := by
  intro entries keyBase now1 now2 rng1 rng2
  cases h : lookupStr entries (keyBase ++ "_session") with
  | some s =>
    by_cases hs : s = ""
    · subst hs
      rw [getOrCreateSessionId_empty entries keyBase now1 rng1 h]
      constructor
      · rw [getOrCreateSessionId_present _ keyBase now2 rng2 _
          (lookupStr_setStr_self entries (keyBase ++ "_session") _)
          (sess_ne_empty (toString now1) rng1.next.1)]
      · simp [storeGet, lookupStr_setStr_self]
    · rw [getOrCreateSessionId_present entries keyBase now1 rng1 s h hs]
      constructor
      · rw [getOrCreateSessionId_present entries keyBase now2 rng2 s h hs]
      · simp [storeGet, h]
  | none =>
    rw [getOrCreateSessionId_absent entries keyBase now1 rng1 h]
    constructor
    · rw [getOrCreateSessionId_present _ keyBase now2 rng2 _
        (lookupStr_setStr_self entries (keyBase ++ "_session") _)
        (sess_ne_empty (toString now1) rng1.next.1)]
    · simp [storeGet, lookupStr_setStr_self]

/-- The `JSON.parse` oracle that always throws. -/
def parseNone : String → Option Record := fun _ => none

/-- Concrete instance for C9 with nothing ever stored. -/
def c9StateEmpty : SdkState :=
  { config := { affiliateCode := some "AC", appCode := none, debug := false,
                disableExternalRequests := false }
  , sessionId := some "sess_1", sessionStartTime := some 10
  , lastEventTime := some 10, pageStartTime := 10, isInitialized := true
  , deviceId := some "dev_1", eventQueue := [], store := .ok [] }

/-- Concrete instance for C9 with a throwing storage. -/
def c9StateBroken : SdkState :=
  { c9StateEmpty with store := .broken }

/-- Concrete instance for C9 with unparseable stored data. -/
def c9StateBad : SdkState :=
  { c9StateEmpty with
    store := .ok [("affiliate_sdk_AC_user_props", "not-json")] }

/-- C9: `getUserProperties` returns the empty bag — not null and not an
error — whenever no user properties were ever stored, whenever the store read
throws, and whenever the stored data does not parse. -/
theorem c9_empty_user_properties :
    (∀ (parse : String → Option Record) (st : SdkState),
       storeGet st.store (storageKeyBase st.config ++ "_user_props") = .ok none →
       getUserPropertiesE parse st = .ok [])
  ∧ (∀ (parse : String → Option Record) (st : SdkState),
       st.store = .broken → getUserPropertiesE parse st = .ok [])
  ∧ (∀ (parse : String → Option Record) (st : SdkState) (s : String),
       storeGet st.store (storageKeyBase st.config ++ "_user_props")
         = .ok (some s) →
       parse s = none → getUserPropertiesE parse st = .ok []) := by
  refine ⟨?_, ?_, ?_⟩
  · intro parse st h
    unfold getUserPropertiesE
    rw [h]
  · intro parse st h
    unfold getUserPropertiesE
    rw [h]
    rfl
  · intro parse st s h hp
    unfold getUserPropertiesE
    rw [h]
    dsimp only
    by_cases hs : s = ""
    · rw [if_pos hs]
    · rw [if_neg hs, hp]

/-- Witness for C9 at the three concrete stores. -/
theorem c9_empty_user_properties_witness :
    getUserPropertiesE parseNone c9StateEmpty = .ok []
  ∧ getUserPropertiesE parseNone c9StateBroken = .ok []
  ∧ getUserPropertiesE parseNone c9StateBad = .ok [] :=
  ⟨c9_empty_user_properties.1 parseNone c9StateEmpty rfl,
   c9_empty_user_properties.2.1 parseNone c9StateBroken rfl,
   c9_empty_user_properties.2.2 parseNone c9StateBad "not-json" rfl rfl⟩

/-- C10: a `trackEvent` call made before initialization completed (with
external requests not disabled) is not handed to the delivery pipeline; it
only appends `\x7b event_type, parameters, queued_at: now,
retry_count: 0 \x7d` to the in-memory queue — and a drain (as run by
`processEventQueue` during the next `initialize`) attempts delivery of every
such `retry_count = 0` entry. -/
theorem c10_preinit_queue :
    (∀ (st : SdkState) (name : String) (ps : Record) (now : Nat)
       (url fp : String) (attr : Option (String × String)) (o : RequestOutcome),
       st.isInitialized = false → st.config.disableExternalRequests = false →
       trackEventE st name ps now url fp attr o
         = .ok ({ st with
                  eventQueue := st.eventQueue ++ [⟨.preInit name ps, 0, now⟩] },
                none))
  ∧ (∀ (dis : Bool) (fp : String) (attr : Option (String × String))
       (os : List RequestOutcome) (now t : Nat) (q1 q2 : List QueueEntry)
       (name : String) (ps : Record),
       .preInit name ps ∈
         (drainQueue dis fp attr os now
           (q1 ++ ⟨.preInit name ps, 0, t⟩ :: q2)).2) := by
  constructor
  · intro st name ps now url fp attr o hinit hdis
    unfold trackEventE
    rw [hinit, hdis]
    rfl
  · intro dis fp attr os now t q1 q2 name ps
    have hne : q1 ++ (⟨.preInit name ps, 0, t⟩ : QueueEntry) :: q2 ≠ [] := by
      simp
    unfold drainQueue
    rw [if_neg hne, drainLoop_attempts]
    refine List.mem_append.mpr (Or.inr (List.mem_map.mpr
      ⟨⟨.preInit name ps, 0, t⟩, ?_, rfl⟩))
    refine List.mem_filter.mpr ⟨?_, rfl⟩
    exact List.mem_append.mpr (Or.inr (List.mem_cons_self _ _))

/-- Concrete instance for the C10 witness: an uninitialized SDK. -/
def c10State : SdkState :=
  { config := { affiliateCode := some "AC", appCode := none, debug := false,
                disableExternalRequests := false }
  , sessionId := none, sessionStartTime := none, lastEventTime := none
  , pageStartTime := 0, isInitialized := false, deviceId := none
  , eventQueue := [], store := .ok [] }

/-- Witness for C10: a concrete pre-initialization call queues the event
unsent, and the drain of that queue attempts it. -/
theorem c10_preinit_queue_witness :
    trackEventE c10State "signup" [("user_id", .str "u1")] 7 "https://x" "fp"
        none .xhrError
      = .ok ({ c10State with
               eventQueue := [⟨.preInit "signup" [("user_id", .str "u1")], 0, 7⟩] },
             none)
  ∧ .preInit "signup" [("user_id", .str "u1")] ∈
      (drainQueue false "fp" none [.xhrError] 9
        [⟨.preInit "signup" [("user_id", .str "u1")], 0, 7⟩]).2 := by
  constructor
  · have h := c10_preinit_queue.1 c10State "signup" [("user_id", .str "u1")] 7
      "https://x" "fp" none .xhrError rfl rfl
    simpa using h
  · have h := c10_preinit_queue.2 false "fp" none [.xhrError] 9 7 [] []
      "signup" [("user_id", .str "u1")]
    simpa using h

end EventsSDK
